import Mathlib

/-
Verification of the semantic-analysis core of the ic10lsp language server.

The definitions below are a shallow embedding of the Rust sources:
  * src/instructions.rs : the instruction catalog, vocabulary tables and the
    Union/DataType matching algebra;
  * src/main.rs : the symbol table builder (update_definitions), the type
    checker (check_types), and the lint passes of run_diagnostics.

The external tree-sitter parse tree is modelled as plain data: each query
capture the Rust code iterates over becomes an element of an input list, in
document order, and each node carries its kind, text and source range.
Machine integers (the u8 line index of a label, the u8 parse of a batch-mode
literal) are modelled as Nat with explicit bounds / mod 256.
-/

namespace Ic10

/-- DataType from src/instructions.rs (the Stationpedia hash member is not
present in this revision of the enum). -/
inductive DataType where
  | Number
  | Register
  | Device
  | LogicType
  | SlotLogicType
  | Name
  | BatchMode
  | ReagentMode
deriving DecidableEq, Repr

/-- Union(&[DataType]) from src/instructions.rs: the set of types one operand
position accepts, represented as the slice the source stores. -/
abbrev Union := List DataType

/-- InstructionSignature(&[Union]) from src/instructions.rs. -/
abbrev InstructionSignature := List Union

/-- Union::match_type: membership of a single type in the union (linear scan
over the slice, as in the source). -/
def Union.match_type (u : Union) (typ : DataType) : Bool :=
  u.any (fun x => x == typ)

/-- Union::match_union: true iff some element of the first slice equals some
element of the second (the double loop of the source). -/
def Union.match_union (u : Union) (types : Union) : Bool :=
  u.any (fun typ => types.any (fun typ2 => typ == typ2))

/-- Union::intersection from src/instructions.rs. -/
def Union.intersection (u : Union) (other : List DataType) : List DataType :=
  u.filter (fun x => other.contains x)

/-- Display for DataType from src/instructions.rs. -/
def DataType.display : DataType -> String
  | .Number => "num"
  | .Register => "r?"
  | .Device => "d?"
  | .LogicType => "type"
  | .SlotLogicType => "slotType"
  | .Name => "name"
  | .BatchMode => "batchMode"
  | .ReagentMode => "reagentMode"

/-- Display for Union from src/instructions.rs: items joined by a bar,
parenthesised unless the union has exactly one member. -/
def Union.display (u : Union) : String :=
  let inner := String.intercalate "|" (u.map DataType.display)
  if u.length != 1 then "(" ++ inner ++ ")" else inner

/- The named parameter unions of src/instructions.rs. -/
def REGISTER : Union := [DataType.Register]
def DEVICE : Union := [DataType.Device]
def VALUE : Union := [DataType.Register, DataType.Number]
def LOGIC_TYPE : Union := [DataType.LogicType]
def SLOT_LOGIC_TYPE : Union := [DataType.SlotLogicType]
def BATCH_MODE : Union := [DataType.BatchMode, DataType.Number, DataType.Register]
def REAGENT_MODE : Union := [DataType.ReagentMode, DataType.Number, DataType.Register]

/-- LOGIC_TYPES from src/instructions.rs. -/
def LOGIC_TYPES : List String := [
  "Power",
  "Open",
  "Mode",
  "Error",
  "Lock",
  "Pressure",
  "Temperature",
  "PressureExternal",
  "PressureInternal",
  "Activate",
  "Charge",
  "Setting",
  "Reagents",
  "RatioOxygen",
  "RatioCarbonDioxide",
  "RatioNitrogen",
  "RatioPollutant",
  "RatioVolatiles",
  "RatioWater",
  "Horizontal",
  "Vertical",
  "SolarAngle",
  "Maximum",
  "Ratio",
  "PowerPotential",
  "PowerActual",
  "Quantity",
  "On",
  "ImportQuantity",
  "ImportSlotOccupant",
  "ExportQuantity",
  "ExportSlotOccupant",
  "RequiredPower",
  "HorizontalRatio",
  "VerticalRatio",
  "PowerRequired",
  "Idle",
  "Color",
  "ElevatorSpeed",
  "ElevatorLevel",
  "RecipeHash",
  "ExportSlotHash",
  "ImportSlotHash",
  "PlantHealth1",
  "PlantHealth2",
  "PlantHealth3",
  "PlantHealth4",
  "PlantGrowth1",
  "PlantGrowth2",
  "PlantGrowth3",
  "PlantGrowth4",
  "PlantEfficiency1",
  "PlantEfficiency2",
  "PlantEfficiency3",
  "PlantEfficiency4",
  "PlantHash1",
  "PlantHash2",
  "PlantHash3",
  "PlantHash4",
  "RequestHash",
  "CompletionRatio",
  "ClearMemory",
  "ExportCount",
  "ImportCount",
  "PowerGeneration",
  "TotalMoles",
  "Volume",
  "Plant",
  "Harvest",
  "Output",
  "PressureSetting",
  "TemperatureSetting",
  "TemperatureExternal",
  "Filtration",
  "AirRelease",
  "PositionX",
  "PositionY",
  "PositionZ",
  "VelocityMagnitude",
  "VelocityRelativeX",
  "VelocityRelativeY",
  "VelocityRelativeZ",
  "RatioNitrousOxide",
  "PrefabHash",
  "ForceWrite",
  "SignalStrength",
  "SignalID",
  "TargetX",
  "TargetY",
  "TargetZ",
  "SettingInput",
  "SettingOutput",
  "CurrentResearchPodType",
  "ManualResearchRequiredPod",
  "MineablesInVicinity",
  "MineablesInQueue",
  "NextWeatherEventTime",
  "Combustion",
  "Fuel",
  "ReturnFuelCost",
  "CollectableGoods",
  "Time",
  "Bpm",
  "EnvironmentEfficiency",
  "WorkingGasEfficiency",
  "PressureInput",
  "TemperatureInput",
  "RatioOxygenInput",
  "RatioCarbonDioxideInput",
  "RatioNitrogenInput",
  "RatioPollutantInput",
  "RatioVolatilesInput",
  "RatioWaterInput",
  "RatioNitrousOxideInput",
  "TotalMolesInput",
  "PressureInput2",
  "TemperatureInput2",
  "RatioOxygenInput2",
  "RatioCarbonDioxideInput2",
  "RatioNitrogenInput2",
  "RatioPollutantInput2",
  "RatioVolatilesInput2",
  "RatioWaterInput2",
  "RatioNitrousOxideInput2",
  "TotalMolesInput2",
  "PressureOutput",
  "TemperatureOutput",
  "RatioOxygenOutput",
  "RatioCarbonDioxideOutput",
  "RatioNitrogenOutput",
  "RatioPollutantOutput",
  "RatioVolatilesOutput",
  "RatioWaterOutput",
  "RatioNitrousOxideOutput",
  "TotalMolesOutput",
  "PressureOutput2",
  "TemperatureOutput2",
  "RatioOxygenOutput2",
  "RatioCarbonDioxideOutput2",
  "RatioNitrogenOutput2",
  "RatioPollutantOutput2",
  "RatioVolatilesOutput2",
  "RatioWaterOutput2",
  "RatioNitrousOxideOutput2",
  "TotalMolesOutput2",
  "CombustionInput",
  "CombustionInput2",
  "CombustionOutput",
  "CombustionOutput2",
  "OperationalTemperatureEfficiency",
  "TemperatureDifferentialEfficiency",
  "PressureEfficiency",
  "CombustionLimiter",
  "Throttle",
  "Rpm",
  "Stress",
  "InterrogationProgress",
  "TargetPadIndex",
  "SizeX",
  "SizeY",
  "SizeZ",
  "MinimumWattsToContact",
  "WattsReachingContact"]

/-- SLOT_LOGIC_TYPES from src/instructions.rs. -/
def SLOT_LOGIC_TYPES : List String := [
  "Occupied",
  "OccupantHash",
  "Quantity",
  "Damage",
  "Efficiency",
  "Health",
  "Growth",
  "Pressure",
  "Temperature",
  "Charge",
  "ChargeRatio",
  "Class",
  "PressureWaste",
  "PressureAir",
  "MaxQuantity",
  "Mature",
  "PrefabHash",
  "Seeding"]

/-- BATCH_MODES from src/instructions.rs. -/
def BATCH_MODES : List String := [
  "Average",
  "Sum",
  "Minimum",
  "Maximum"]

/-- REAGENT_MODES from src/instructions.rs. -/
def REAGENT_MODES : List String := [
  "Contents",
  "Required",
  "Recipe"]

/-- BRANCH_INSTRUCTIONS from the absolute-jump lint of src/main.rs. -/
def BRANCH_INSTRUCTIONS : List String := [
  "bdns",
  "bdnsal",
  "bdse",
  "bdseal",
  "bap",
  "bapz",
  "bapzal",
  "beq",
  "beqal",
  "beqz",
  "beqzal",
  "bge",
  "bgeal",
  "bgez",
  "bgezal",
  "bgt",
  "bgtal",
  "bgtz",
  "bgtzal",
  "ble",
  "bleal",
  "blez",
  "blezal",
  "blt",
  "bltal",
  "bltz",
  "bltzal",
  "bna",
  "bnaz",
  "bnazal",
  "bne",
  "bneal",
  "bnez",
  "bnezal",
  "j",
  "jal",
  "bdnvl",
  "bdnvs"]

/-- REPLACEMENTS from the L001 code action of src/main.rs: mnemonic of an
absolute branch to its relative equivalent. -/
def REPLACEMENTS : List (String × String) := [
  ("bdns", "brdns"),
  ("bdse", "brdse"),
  ("bap", "brap"),
  ("bapz", "brapz"),
  ("beq", "breq"),
  ("beqz", "breqz"),
  ("bge", "brge"),
  ("bgez", "brgez"),
  ("bgt", "brgt"),
  ("bgtz", "brgtz"),
  ("ble", "brle"),
  ("blez", "brlez"),
  ("blt", "brlt"),
  ("bltz", "brltz"),
  ("bna", "brna"),
  ("bnaz", "brnaz"),
  ("bne", "brne"),
  ("bnez", "brnez"),
  ("j", "jr")]

/-- INSTRUCTIONS from src/instructions.rs: mnemonic to signature. -/
def INSTRUCTIONS : List (String × InstructionSignature) := [
  ("alias", [[DataType.Name], [DataType.Register, DataType.Device]]),
  ("label", [[DataType.Name], [DataType.Register, DataType.Device]]),
  ("define", [[DataType.Name], [DataType.Number]]),
  ("bdns", [DEVICE, VALUE]),
  ("bdnsal", [DEVICE, VALUE]),
  ("bdse", [DEVICE, VALUE]),
  ("bdseal", [DEVICE, VALUE]),
  ("brdns", [DEVICE, VALUE]),
  ("brdse", [DEVICE, VALUE]),
  ("l", [REGISTER, DEVICE, LOGIC_TYPE]),
  ("lb", [REGISTER, VALUE, LOGIC_TYPE, BATCH_MODE]),
  ("lr", [REGISTER, DEVICE, REAGENT_MODE, VALUE]),
  ("ls", [REGISTER, DEVICE, VALUE, SLOT_LOGIC_TYPE]),
  ("s", [DEVICE, LOGIC_TYPE, VALUE]),
  ("sb", [VALUE, LOGIC_TYPE, VALUE]),
  ("bap", [VALUE, VALUE, VALUE, VALUE]),
  ("bapal", [VALUE, VALUE, VALUE, VALUE]),
  ("bapz", [VALUE, VALUE, VALUE]),
  ("bapzal", [VALUE, VALUE, VALUE]),
  ("beq", [VALUE, VALUE, VALUE]),
  ("beqal", [VALUE, VALUE, VALUE]),
  ("beqz", [VALUE, VALUE]),
  ("beqzal", [VALUE, VALUE]),
  ("bge", [VALUE, VALUE, VALUE]),
  ("bgeal", [VALUE, VALUE, VALUE]),
  ("bgez", [VALUE, VALUE]),
  ("bgezal", [VALUE, VALUE]),
  ("bgt", [VALUE, VALUE, VALUE]),
  ("bgtal", [VALUE, VALUE, VALUE]),
  ("bgtz", [VALUE, VALUE]),
  ("bgtzal", [VALUE, VALUE]),
  ("ble", [VALUE, VALUE, VALUE]),
  ("bleal", [VALUE, VALUE, VALUE]),
  ("blez", [VALUE, VALUE]),
  ("blezal", [VALUE, VALUE]),
  ("blt", [VALUE, VALUE, VALUE]),
  ("bltal", [VALUE, VALUE, VALUE]),
  ("bltz", [VALUE, VALUE]),
  ("bltzal", [VALUE, VALUE]),
  ("bna", [VALUE, VALUE, VALUE, VALUE]),
  ("bnaal", [VALUE, VALUE, VALUE, VALUE]),
  ("bnaz", [VALUE, VALUE, VALUE]),
  ("bnazal", [VALUE, VALUE, VALUE]),
  ("bne", [VALUE, VALUE, VALUE]),
  ("bneal", [VALUE, VALUE, VALUE]),
  ("bnez", [VALUE, VALUE]),
  ("bnezal", [VALUE, VALUE]),
  ("brap", [VALUE, VALUE, VALUE, VALUE]),
  ("brapz", [VALUE, VALUE, VALUE]),
  ("brnaz", [VALUE, VALUE, VALUE]),
  ("breq", [VALUE, VALUE, VALUE]),
  ("breqz", [VALUE, VALUE]),
  ("brge", [VALUE, VALUE, VALUE]),
  ("brgez", [VALUE, VALUE]),
  ("brgt", [VALUE, VALUE, VALUE]),
  ("brgtz", [VALUE, VALUE]),
  ("brle", [VALUE, VALUE, VALUE]),
  ("brlez", [VALUE, VALUE]),
  ("brlt", [VALUE, VALUE, VALUE]),
  ("brltz", [VALUE, VALUE]),
  ("brna", [VALUE, VALUE, VALUE, VALUE]),
  ("brne", [VALUE, VALUE, VALUE]),
  ("brnez", [VALUE, VALUE]),
  ("j", [VALUE]),
  ("jal", [VALUE]),
  ("jr", [VALUE]),
  ("sap", [REGISTER, VALUE, VALUE, VALUE]),
  ("sapz", [REGISTER, VALUE, VALUE]),
  ("sdns", [REGISTER, DEVICE]),
  ("sdse", [REGISTER, DEVICE]),
  ("select", [REGISTER, VALUE, VALUE, VALUE]),
  ("seq", [REGISTER, VALUE, VALUE]),
  ("seqz", [REGISTER, VALUE]),
  ("sge", [REGISTER, VALUE, VALUE]),
  ("sgez", [REGISTER, VALUE]),
  ("sgt", [REGISTER, VALUE, VALUE]),
  ("sgtz", [REGISTER, VALUE]),
  ("sle", [REGISTER, VALUE, VALUE]),
  ("slez", [REGISTER, VALUE]),
  ("slt", [REGISTER, VALUE, VALUE]),
  ("sltz", [REGISTER, VALUE]),
  ("sna", [REGISTER, VALUE, VALUE, VALUE]),
  ("snaz", [REGISTER, VALUE, VALUE]),
  ("sne", [REGISTER, VALUE, VALUE]),
  ("snez", [REGISTER, VALUE]),
  ("abs", [REGISTER, VALUE]),
  ("acos", [REGISTER, VALUE]),
  ("add", [REGISTER, VALUE, VALUE]),
  ("asin", [REGISTER, VALUE]),
  ("atan", [REGISTER, VALUE]),
  ("atan2", [REGISTER, VALUE, VALUE]),
  ("ceil", [REGISTER, VALUE]),
  ("cos", [REGISTER, VALUE]),
  ("div", [REGISTER, VALUE, VALUE]),
  ("exp", [REGISTER, VALUE]),
  ("floor", [REGISTER, VALUE]),
  ("log", [REGISTER, VALUE]),
  ("max", [REGISTER, VALUE, VALUE]),
  ("min", [REGISTER, VALUE, VALUE]),
  ("mod", [REGISTER, VALUE, VALUE]),
  ("mul", [REGISTER, VALUE, VALUE]),
  ("rand", [REGISTER]),
  ("round", [REGISTER, VALUE]),
  ("sin", [REGISTER, VALUE]),
  ("sqrt", [REGISTER, VALUE]),
  ("sub", [REGISTER, VALUE, VALUE]),
  ("tan", [REGISTER, VALUE]),
  ("trunc", [REGISTER, VALUE]),
  ("and", [REGISTER, VALUE, VALUE]),
  ("nor", [REGISTER, VALUE, VALUE]),
  ("or", [REGISTER, VALUE, VALUE]),
  ("xor", [REGISTER, VALUE, VALUE]),
  ("peek", [REGISTER]),
  ("pop", [REGISTER]),
  ("push", [VALUE]),
  ("hcf", []),
  ("move", [REGISTER, VALUE]),
  ("sleep", [VALUE]),
  ("yield", []),
  ("bnan", [VALUE, VALUE]),
  ("brnan", [VALUE, VALUE]),
  ("lbn", [REGISTER, VALUE, VALUE, LOGIC_TYPE, BATCH_MODE]),
  ("lbns", [REGISTER, VALUE, VALUE, VALUE, SLOT_LOGIC_TYPE, BATCH_MODE]),
  ("lbs", [REGISTER, VALUE, VALUE, SLOT_LOGIC_TYPE, BATCH_MODE]),
  ("not", [REGISTER, VALUE]),
  ("sbn", [VALUE, VALUE, LOGIC_TYPE, VALUE]),
  ("sbs", [VALUE, VALUE, SLOT_LOGIC_TYPE, REGISTER]),
  ("sla", [REGISTER, VALUE, VALUE]),
  ("sll", [REGISTER, VALUE, VALUE]),
  ("sra", [REGISTER, VALUE, VALUE]),
  ("srl", [REGISTER, VALUE, VALUE]),
  ("snan", [REGISTER, VALUE]),
  ("snanz", [REGISTER, VALUE]),
  ("ss", [DEVICE, VALUE, SLOT_LOGIC_TYPE, REGISTER])]


/-- BATCH_MODE_LOOKUP from src/instructions.rs (u8 keys modelled as Nat). -/
def BATCH_MODE_LOOKUP : List (Nat × String) :=
  [(0, "Average"), (1, "Sum"), (2, "Minimum"), (3, "Maximum")]

/-- REAGENT_MODE_LOOKUP from src/instructions.rs (u8 keys modelled as Nat). -/
def REAGENT_MODE_LOOKUP : List (Nat × String) :=
  [(0, "Contents"), (1, "Required"), (2, "Recipe")]


/-! ## Tree and document model

The tree-sitter syntax tree is external input.  Each node the Rust code
inspects carries a kind string, its source text and its range; a query is
modelled by the list of its captures in document order. -/

/-- A point in the document (tree_sitter::Point). -/
structure Pos where
  row : Nat
  col : Nat
deriving DecidableEq, Repr

/-- A source range (tree_sitter::Range, start and end points). -/
structure Rng where
  start : Pos
  stop : Pos
deriving DecidableEq, Repr

/-- An operand node of an instruction.  An operand in the grammar wraps
exactly one child (register / device_spec / number / logictype /
identifier), so the kind of child(0) (equally named_child(0)) and its text
are recorded directly. -/
structure Operand where
  childKind : String
  text : String
  range : Rng
deriving DecidableEq, Repr

/-- An instruction node with its operation child (captures the code only
reaches after its if-let on the operation field succeeds) and its operand
children in document order. -/
structure InstructionNode where
  opText : String
  opRange : Rng
  operands : List Operand
  range : Rng
deriving DecidableEq, Repr

/-- One capture of the definitions query of update_definitions, in document
order: an (instruction (operation "define")) capture, an (instruction
(operation "alias"/"label")) capture (both bound to the alias branch by the
query), or a (label (identifier)) capture. -/
inductive DefCapture where
  | defineInstr (operands : List Operand)
  | aliasInstr (operands : List Operand)
  | labelDef (text : String) (range : Rng)
deriving DecidableEq, Repr

/-! ## Symbol table (TypeData) -/

/-- AliasValue from src/main.rs. -/
inductive AliasValue where
  | Register (s : String)
  | Device (s : String)
deriving DecidableEq, Repr

/-- Rust str::starts_with, on the character sequence. -/
def strStartsWith (s pre : String) : Bool :=
  pre.data.isPrefixOf s.data

/-- impl From<String> for AliasValue in src/main.rs: a text starting with
"d" becomes a Device alias, everything else a Register alias. -/
def AliasValue.ofString (value : String) : AliasValue :=
  if strStartsWith value "d" then .Device value else .Register value

/-- HasType::get_type for AliasValue in src/main.rs. -/
def AliasValue.get_type : AliasValue -> DataType
  | .Register _ => .Register
  | .Device _ => .Device

/-- DefinitionData<T> from src/main.rs. -/
structure DefinitionData (T : Type) where
  range : Rng
  value : T
deriving DecidableEq, Repr

/-- TypeData from src/main.rs.  The three HashMaps are modelled as
association lists in insertion order; every insertion is guarded by an
absence check, so keys are unique within each list and List.lookup agrees
with HashMap::get.  Label line indices are u8 in the source; the stored
Nat is always the row reduced mod 256. -/
structure TypeData where
  defines : List (String × DefinitionData String)
  aliases : List (String × DefinitionData AliasValue)
  labels : List (String × DefinitionData Nat)
deriving DecidableEq, Repr

/-- TypeData::get_range from src/main.rs: defines, then aliases, then
labels. -/
def TypeData.get_range (td : TypeData) (name : String) : Option Rng :=
  match List.lookup name td.defines with
  | some d => some d.range
  | none =>
    match List.lookup name td.aliases with
    | some d => some d.range
    | none =>
      match List.lookup name td.labels with
      | some d => some d.range
      | none => none

/-- The previous_range computation of the define/alias branch of
update_definitions: only defines and aliases are consulted (labels are
not). -/
def definesAliasesRange (td : TypeData) (name : String) : Option Rng :=
  match List.lookup name td.defines with
  | some previous => some previous.range
  | none =>
    match List.lookup name td.aliases with
    | some previous => some previous.range
    | none => none

/-! ## Diagnostics -/

inductive Severity where
  | error
  | warning
  | information
deriving DecidableEq, Repr

/-- The messages the analysed passes emit, one constructor per format!
call site, with the dynamic parts as fields; Msg.render reproduces the
exact message text of the source. -/
inductive Msg where
  | duplicateDefinition
  | unsupportedInstruction
  | unknownIdentifier
  | typeMismatch (found expected : Union)
  | superfluousArguments (plural : Bool) (operation : String) (required : Nat)
  | invalidNumberOfArguments
  | syntaxError
  | invalidInstruction
  | instructionPastColumn (c : Nat)
  | commentPastColumn (c : Nat)
  | instructionPastLine (l : Nat)
  | commentPastLine (l : Nat)
  | absoluteJump
  | nonIntegerBatchMode
  | invalidBatchMode
  | literalBatchMode
  | nonIntegerReagentMode
  | invalidReagentMode
  | literalReagentMode
deriving DecidableEq, Repr

/-- An ASCII single quote (the source quotes the mnemonic with them). -/
def squote : String := String.singleton (Char.ofNat 39)

/-- The exact message strings of the source. -/
def Msg.render : Msg -> String
  | .duplicateDefinition => "Duplicate definition"
  | .unsupportedInstruction => "Unsupported instruction"
  | .unknownIdentifier => "Unknown identifier"
  | .typeMismatch found expected =>
      "Type mismatch. Found " ++ found.display ++ ", expected " ++ expected.display
  | .superfluousArguments plural operation required =>
      "Superfluous argument" ++ (if plural then "s" else "") ++ ". " ++ squote
        ++ operation ++ squote ++ " only requires " ++ toString required ++ " arguments."
  | .invalidNumberOfArguments => "Invalid number of arguments"
  | .syntaxError => "Syntax error"
  | .invalidInstruction => "Invalid instruction"
  | .instructionPastColumn c => "Instruction past column " ++ toString c
  | .commentPastColumn c => "Comment past column " ++ toString c
  | .instructionPastLine l => "Instruction past line " ++ toString l
  | .commentPastLine l => "Comment past line " ++ toString l
  | .absoluteJump => "Absolute jump to line number"
  | .nonIntegerBatchMode => "Use of non-integer batch mode"
  | .invalidBatchMode => "Invalid batch mode"
  | .literalBatchMode => "Use of literal number for batch mode"
  | .nonIntegerReagentMode => "Use of non-integer reagent mode"
  | .invalidReagentMode => "Invalid reagent mode"
  | .literalReagentMode => "Use of literal number for reagent mode"

def LINT_ABSOLUTE_JUMP : String := "L001"
def LINT_NUMBER_BATCH_MODE : String := "L002"
def LINT_NUMBER_REAGENT_MODE : String := "L003"

/-- DiagnosticRelatedInformation (all locations are within the analysed
document, so only the range is kept). -/
structure RelatedInfo where
  range : Rng
  message : String
deriving DecidableEq, Repr

/-- An LSP diagnostic as the passes build it. -/
structure Diagnostic where
  range : Rng
  severity : Severity
  code : Option String
  message : Msg
  related : Option (List RelatedInfo)
  data : Option String
deriving DecidableEq, Repr

/-- The duplicate-definition diagnostic of update_definitions. -/
def dupDiag (at_ prev : Rng) : Diagnostic :=
  { range := at_, severity := .error, code := none, message := .duplicateDefinition,
    related := some [{ range := prev, message := "Previously defined here" }],
    data := none }

/-! ## Symbol table builder (update_definitions) -/

/-- The body of the define/alias arm of the capture loop of
update_definitions.  The name node is the first operand
(child_by_field_name), the value node the last (children_by_field_name
last); a name already present in defines or aliases yields a duplicate
diagnostic and no binding; otherwise the value node kind is checked
(number for define, register/device_spec for alias) and the binding
inserted. -/
def bindDefOrAlias (isDefine : Bool) (operands : List Operand)
    (td : TypeData) (diags : List Diagnostic) : TypeData × List Diagnostic :=
  match operands.head? with
  | none => (td, diags)
  | some nameNode =>
    let name := nameNode.text
    match definesAliasesRange td name with
    | some previousRange => (td, diags ++ [dupDiag nameNode.range previousRange])
    | none =>
      match operands.getLast? with
      | none => (td, diags)
      | some valueNode =>
        if isDefine then
          if valueNode.childKind != "number" then (td, diags)
          else
            ({ td with defines :=
                td.defines ++ [(name, ⟨nameNode.range, valueNode.text⟩)] }, diags)
        else
          if valueNode.childKind != "register" && valueNode.childKind != "device_spec" then
            (td, diags)
          else
            ({ td with aliases :=
                td.aliases ++ [(name, ⟨nameNode.range, AliasValue.ofString valueNode.text⟩)] },
             diags)

/-- One iteration of the capture loop of update_definitions. -/
def defStep (st : TypeData × List Diagnostic) (cap : DefCapture) :
    TypeData × List Diagnostic :=
  match cap with
  | .defineInstr operands => bindDefOrAlias true operands st.1 st.2
  | .aliasInstr operands => bindDefOrAlias false operands st.1 st.2
  | .labelDef text rng =>
    match st.1.get_range text with
    | some previous => (st.1, st.2 ++ [dupDiag rng previous])
    | none =>
      ({ st.1 with labels := st.1.labels ++ [(text, ⟨rng, rng.start.row % 256⟩)] }, st.2)

/-- update_definitions from src/main.rs: the previous TypeData is cleared
(lines 1251-1253) and every capture of the definitions query is processed
in document order. -/
def updateDefinitions (prev : TypeData) (caps : List DefCapture) :
    TypeData × List Diagnostic :=
  caps.foldl defStep ({ prev with defines := [], aliases := [], labels := [] }, [])


/-! ## Type checker (check_types) -/

/-- Outcome of classifying one operand inside the check_types loop: a type
union to match against the parameter, an unknown-identifier error, or the
defensive skip of the wildcard arm. -/
inductive OperandClass where
  | typ (u : Union)
  | unknownIdent
  | skip
deriving DecidableEq, Repr

/-- The operand classification of check_types (the match on the kind of the
operand child), given the parameter the operand is zipped against and the
current TypeData. -/
def classifyOperand (td : TypeData) (parameter : Union) (operand : Operand) :
    OperandClass :=
  if operand.childKind = "register" then .typ [DataType.Register]
  else if operand.childKind = "device_spec" then .typ [DataType.Device]
  else if operand.childKind = "number" then .typ [DataType.Number]
  else if operand.childKind = "logictype" then
    let ident := operand.text
    .typ ((if LOGIC_TYPES.contains ident then [DataType.LogicType] else [])
      ++ (if SLOT_LOGIC_TYPES.contains ident then [DataType.SlotLogicType] else [])
      ++ (if BATCH_MODES.contains ident then [DataType.BatchMode] else [])
      ++ (if REAGENT_MODES.contains ident then [DataType.ReagentMode] else []))
  else if operand.childKind = "identifier" then
    let ident := operand.text
    if parameter.match_type DataType.Name then .typ [DataType.Name]
    else if (List.lookup ident td.defines).isSome || (List.lookup ident td.labels).isSome then
      .typ [DataType.Number]
    else
      match List.lookup ident td.aliases with
      | some data =>
        match data.value with
        | AliasValue.Device _ => .typ [DataType.Device]
        | AliasValue.Register _ => .typ [DataType.Register]
      | none => .unknownIdent
  else .skip

/-- The diagnostics one operand contributes in the check_types loop: the
unknown-identifier error, or a type mismatch when the classified union does
not intersect the parameter union. -/
def checkOperand (td : TypeData) (parameter : Union) (operand : Operand) :
    List Diagnostic :=
  match classifyOperand td parameter operand with
  | .skip => []
  | .unknownIdent =>
    [{ range := operand.range, severity := .error, code := none,
       message := .unknownIdentifier, related := none, data := none }]
  | .typ typ =>
    if parameter.match_union typ then []
    else
      [{ range := operand.range, severity := .error, code := none,
         message := .typeMismatch typ parameter, related := none, data := none }]

/-- The arity diagnostics at the end of check_types: more operands than the
signature yields one superfluous-arguments error from the first excess
operand to the end of the instruction (and skips the following check via
continue); otherwise a count differing from the signature length yields one
invalid-number-of-arguments error over the whole instruction. -/
def arityDiags (operation : String) (sig : InstructionSignature)
    (i : InstructionNode) : List Diagnostic :=
  if h : sig.length < i.operands.length then
    let firstSuperfluous := i.operands.get ⟨sig.length, h⟩
    [{ range := ⟨firstSuperfluous.range.start, i.range.stop⟩, severity := .error,
       code := none,
       message := .superfluousArguments (1 < i.operands.length - sig.length) operation sig.length,
       related := none, data := none }]
  else if i.operands.length != sig.length then
    [{ range := i.range, severity := .error, code := none,
       message := .invalidNumberOfArguments, related := none, data := none }]
  else []

/-- check_types for one instruction: resolve the mnemonic (an unresolved
mnemonic other than define/alias/label yields the informational
unsupported-instruction diagnostic), zip the operands against the signature
parameters, then the arity checks. -/
def checkInstr (td : TypeData) (i : InstructionNode) : List Diagnostic :=
  match List.lookup i.opText INSTRUCTIONS with
  | none =>
    if i.opText != "define" && i.opText != "alias" && i.opText != "label" then
      [{ range := i.opRange, severity := .information, code := none,
         message := .unsupportedInstruction, related := none, data := none }]
    else []
  | some sig =>
    (List.zip i.operands sig).flatMap (fun p => checkOperand td p.2 p.1)
      ++ arityDiags i.opText sig i

/-- check_types over every (instruction) capture, in document order. -/
def checkTypes (td : TypeData) (instrs : List InstructionNode) : List Diagnostic :=
  instrs.flatMap (checkInstr td)

/-! ## Lint passes -/

/-- Rust u8::from_str as the lints use it: an optional leading plus sign,
then one or more ASCII digits, value at most 255; anything else (including
a minus sign or an overflowing value) is a parse error. -/
def parseU8 (s : String) : Option Nat :=
  let digits := match s.data with
    | List.cons c rest => if c = Char.ofNat 43 then rest else s.data
    | List.nil => []
  if digits.isEmpty then none
  else if digits.all (fun c => c.isDigit) then
    let v := digits.foldl (fun a c => a * 10 + (c.toNat - 48)) 0
    if v ≤ 255 then some v else none
  else none

/-- The absolute-jump lint of run_diagnostics for one instruction: the
query pre-filters instructions having a number operand; the operation must
be in BRANCH_INSTRUCTIONS and the last operand child must be a number. -/
def absoluteJumpLint (i : InstructionNode) : List Diagnostic :=
  if i.operands.any (fun o => o.childKind == "number") then
    if BRANCH_INSTRUCTIONS.contains i.opText then
      match i.operands.getLast? with
      | some lastOperand =>
        if lastOperand.childKind == "number" then
          [{ range := i.range, severity := .warning, code := some LINT_ABSOLUTE_JUMP,
             message := .absoluteJump, related := none, data := none }]
        else []
      | none => []
    else []
  else []

/-- The number-batch-mode lint of run_diagnostics for one query match: the
operation text must start with "lb"; the trailing number literal is parsed
as u8 and looked up in the batch-mode table. -/
def numberBatchModeLint (operationText : String) (node : Operand) :
    List Diagnostic :=
  if !(strStartsWith operationText "lb") then []
  else
    match parseU8 node.text with
    | none =>
      [{ range := node.range, severity := .error, code := none,
         message := .nonIntegerBatchMode, related := none, data := none }]
    | some value =>
      match List.lookup value BATCH_MODE_LOOKUP with
      | none =>
        [{ range := node.range, severity := .error, code := none,
           message := .invalidBatchMode, related := none, data := none }]
      | some replacement =>
        [{ range := node.range, severity := .warning,
           code := some LINT_NUMBER_BATCH_MODE, message := .literalBatchMode,
           related := none, data := some replacement }]

/-- The batch-mode query (instruction (operation)@op (operand (number)@n) .)
anchors the number operand as the last named child of the instruction. -/
def batchModeInstrLint (i : InstructionNode) : List Diagnostic :=
  match i.operands.getLast? with
  | some lastOperand =>
    if lastOperand.childKind == "number" then numberBatchModeLint i.opText lastOperand
    else []
  | none => []

/-- The number-reagent-mode lint: operation "lr", third operand a number
literal, parsed as u8 against the reagent-mode table. -/
def numberReagentModeLint (i : InstructionNode) : List Diagnostic :=
  if i.opText == "lr" then
    match i.operands with
    | List.cons _o1 (List.cons _o2 (List.cons o3 _rest)) =>
      if o3.childKind == "number" then
        match parseU8 o3.text with
        | none =>
          [{ range := o3.range, severity := .error, code := none,
             message := .nonIntegerReagentMode, related := none, data := none }]
        | some value =>
          match List.lookup value REAGENT_MODE_LOOKUP with
          | none =>
            [{ range := o3.range, severity := .error, code := none,
               message := .invalidReagentMode, related := none, data := none }]
          | some replacement =>
            [{ range := o3.range, severity := .warning,
               code := some LINT_NUMBER_REAGENT_MODE, message := .literalReagentMode,
               related := none, data := some replacement }]
      else []
    | _ => []
  else []

/-! ## Diagnostics orchestration (run_diagnostics) -/

/-- Configuration from src/main.rs. -/
structure Configuration where
  max_lines : Nat
  max_columns : Nat
  warn_overline_comment : Bool
  warn_overcolumn_comment : Bool
deriving DecidableEq, Repr

/-- The parsed tree of one document revision, as the capture lists of the
queries run_diagnostics executes (each in document order). -/
structure SyntaxTree where
  errorNodes : List Rng
  invalidInstructions : List Rng
  defCaptures : List DefCapture
  instructions : List InstructionNode
  comments : List Rng
deriving Repr

/-- run_diagnostics from src/main.rs: update_definitions, syntax errors,
invalid instructions, check_types, the overlength checks (the line check
restricts the cursor to nodes whose range reaches line max_lines), and the
three lint passes, concatenated in source order.  Returns the published
diagnostics and the new TypeData. -/
def runDiagnostics (cfg : Configuration) (tree : SyntaxTree) (prev : TypeData) :
    List Diagnostic × TypeData :=
  let upd := updateDefinitions prev tree.defCaptures
  let td := upd.1
  let defDiags := upd.2
  let syntaxDiags := tree.errorNodes.map (fun r =>
    { range := r, severity := .error, code := none, message := .syntaxError,
      related := none, data := none })
  let invalidDiags := tree.invalidInstructions.map (fun r =>
    { range := r, severity := .error, code := none, message := .invalidInstruction,
      related := none, data := none })
  let typeDiags := checkTypes td tree.instructions
  let overColInstr := (tree.instructions.filter
      (fun i => cfg.max_columns < i.range.stop.col)).map (fun i =>
    { range := ⟨⟨i.range.stop.row, cfg.max_columns⟩, i.range.stop⟩, severity := .error,
      code := none, message := .instructionPastColumn cfg.max_columns,
      related := none, data := none })
  let overColComment := if cfg.warn_overcolumn_comment then
      (tree.comments.filter (fun r => cfg.max_columns < r.stop.col)).map (fun r =>
        { range := ⟨⟨r.stop.row, cfg.max_columns⟩, r.stop⟩, severity := .warning,
          code := none, message := .commentPastColumn cfg.max_columns,
          related := none, data := none })
    else []
  let overLineInstr := (tree.instructions.filter
      (fun i => cfg.max_lines ≤ i.range.stop.row)).map (fun i =>
    { range := i.range, severity := .error, code := none,
      message := .instructionPastLine cfg.max_lines, related := none, data := none })
  let overLineComment := if cfg.warn_overline_comment then
      (tree.comments.filter (fun r => cfg.max_lines ≤ r.stop.row)).map (fun r =>
        { range := r, severity := .warning, code := none,
          message := .commentPastLine cfg.max_lines, related := none, data := none })
    else []
  let absJump := tree.instructions.flatMap absoluteJumpLint
  let batch := tree.instructions.flatMap batchModeInstrLint
  let reagent := tree.instructions.flatMap numberReagentModeLint
  (defDiags ++ syntaxDiags ++ invalidDiags ++ typeDiags ++ overColInstr
     ++ overColComment ++ overLineInstr ++ overLineComment ++ absJump ++ batch
     ++ reagent, td)

/-- The u8 arithmetic of the label hover text ("Label on line {value + 1}"):
the stored value plus one, wrapping as an 8-bit integer. -/
def hoverLabelLine (stored : Nat) : Nat := (stored + 1) % 256


/-! ## Shared helper lemmas -/

/-- Looking a key up in an appended association list skips a first part that
does not bind the key. -/
theorem lookup_append_of_none {β : Type} (k : String) (l1 l2 : List (String × β))
    (h : List.lookup k l1 = none) : List.lookup k (l1 ++ l2) = List.lookup k l2 := by
  induction l1 with
  | nil => simp
  | cons hd tl ih =>
    obtain ⟨a, b⟩ := hd
    simp only [List.cons_append, List.lookup] at h ⊢
    cases hbeq : (k == a) with
    | true => rw [hbeq] at h; simp at h
    | false => rw [hbeq] at h; exact ih h

/-- A name with no range in the symbol table is absent from all three
binding maps. -/
theorem get_range_none (td : TypeData) (name : String)
    (h : td.get_range name = none) :
    List.lookup name td.defines = none ∧ List.lookup name td.aliases = none ∧
      List.lookup name td.labels = none := by
  unfold TypeData.get_range at h
  cases h1 : List.lookup name td.defines with
  | some d => rw [h1] at h; simp at h
  | none =>
    rw [h1] at h
    cases h2 : List.lookup name td.aliases with
    | some d => rw [h2] at h; simp at h
    | none =>
      rw [h2] at h
      cases h3 : List.lookup name td.labels with
      | some d => rw [h3] at h; simp at h
      | none => exact ⟨rfl, rfl, rfl⟩

/-- Processing a (label (identifier)) capture for a still-free name inserts
the binding with the row reduced mod 256 and emits nothing. -/
theorem defStep_label_free (td : TypeData) (diags : List Diagnostic)
    (name : String) (rng : Rng) (hfree : td.get_range name = none) :
    defStep (td, diags) (.labelDef name rng) =
      ({ td with labels := td.labels ++ [(name, ⟨rng, rng.start.row % 256⟩)] }, diags) := by
  simp only [defStep, hfree]

/-! ## C8: match_union is non-empty intersection, and symmetric -/

/-- C8: Union::match_union a b is true exactly when the two type sets have a
common member, and the predicate is symmetric in its two arguments. -/
theorem c8_match_union_intersection (a b : Union) :
    (a.match_union b = true ↔ ∃ t, t ∈ a ∧ t ∈ b) ∧
    a.match_union b = b.match_union a := by
  have hchar : ∀ x y : Union, (x.match_union y = true ↔ ∃ t, t ∈ x ∧ t ∈ y) := by
    intro x y
    unfold Union.match_union
    simp only [List.any_eq_true, beq_iff_eq]
    constructor
    · rintro ⟨t, ht, t2, ht2, heq⟩
      exact ⟨t, ht, heq ▸ ht2⟩
    · rintro ⟨t, ht, ht2⟩
      exact ⟨t, ht, t, ht2, rfl⟩
  refine ⟨hchar a b, ?_⟩
  rw [Bool.eq_iff_iff, hchar a b, hchar b a]
  constructor
  · rintro ⟨t, h1, h2⟩; exact ⟨t, h2, h1⟩
  · rintro ⟨t, h1, h2⟩; exact ⟨t, h2, h1⟩

/-! ## C9: the diagnostics pipeline is a function of (tree, content, config) -/

/-- C9: run_diagnostics is insensitive to the per-document mutable state it
starts from (update_definitions clears the previous TypeData wholesale), so
any two runs on the same tree and configuration — in particular an
immediate re-run on the state the first run produced — publish identical
diagnostic lists. -/
theorem c9_pipeline_deterministic (cfg : Configuration) (tree : SyntaxTree)
    (td1 td2 : TypeData) :
    (runDiagnostics cfg tree td1).1 = (runDiagnostics cfg tree td2).1 ∧
    (runDiagnostics cfg tree (runDiagnostics cfg tree td1).2).1 =
      (runDiagnostics cfg tree td1).1 := by
  exact ⟨rfl, rfl⟩

/-! ## C10: label line indices are stored mod 256 -/

/-- C10: a label whose name is still free is bound to its zero-based start
row reduced mod 256 (the u8 cast of the source); for rows of 256 and above
the stored index, and the wrapped successor the hover text reports, differ
from the actual line numbers. -/
theorem c10_label_line_mod_256 (td : TypeData) (diags : List Diagnostic)
    (name : String) (rng : Rng) (hfree : td.get_range name = none) :
    List.lookup name (defStep (td, diags) (.labelDef name rng)).1.labels =
      some ⟨rng, rng.start.row % 256⟩ ∧
    (256 ≤ rng.start.row →
      rng.start.row % 256 ≠ rng.start.row ∧
      hoverLabelLine (rng.start.row % 256) ≠ rng.start.row + 1) := by
  obtain ⟨-, -, hlab⟩ := get_range_none td name hfree
  constructor
  · rw [defStep_label_free td diags name rng hfree]
    show List.lookup name
        (td.labels ++ [(name, (⟨rng, rng.start.row % 256⟩ : DefinitionData Nat))]) = _
    rw [lookup_append_of_none name td.labels _ hlab]
    simp [List.lookup]
  · intro hrow
    have h1 : rng.start.row % 256 < 256 := Nat.mod_lt _ (by omega)
    have h2 : hoverLabelLine (rng.start.row % 256) < 256 := Nat.mod_lt _ (by omega)
    omega

/-- Witness for C10 at a concrete input: a label on zero-based line 300 is
recorded as 300 % 256 = 44, and neither 44 nor the hover line 45 equals the
actual value. -/
theorem c10_witness :
    List.lookup "loop"
        (defStep ((⟨[], [], []⟩ : TypeData), [])
          (DefCapture.labelDef "loop" ⟨⟨300, 0⟩, ⟨300, 5⟩⟩)).1.labels =
      some ⟨⟨⟨300, 0⟩, ⟨300, 5⟩⟩, 300 % 256⟩ ∧
    (300 % 256 ≠ 300 ∧ hoverLabelLine (300 % 256) ≠ 300 + 1) :=
  ⟨(c10_label_line_mod_256 ⟨[], [], []⟩ [] "loop" ⟨⟨300, 0⟩, ⟨300, 5⟩⟩ rfl).1,
   (c10_label_line_mod_256 ⟨[], [], []⟩ [] "loop" ⟨⟨300, 0⟩, ⟨300, 5⟩⟩ rfl).2
     (by decide)⟩


/-! ## C1: alias target classification -/

/-- If a name is absent from defines and aliases, the define/alias duplicate
check finds no previous range. -/
theorem definesAliasesRange_none (td : TypeData) (name : String)
    (h1 : List.lookup name td.defines = none)
    (h2 : List.lookup name td.aliases = none) :
    definesAliasesRange td name = none := by
  simp only [definesAliasesRange, h1, h2]

/-- C1 counterexample: an alias whose target token has node kind "register"
but text "dx" is stored as a Device alias — the classification comes from
the leading character of the text (From<String> for AliasValue), not from
the node kind, contradicting the claim that a register-kind target is
always stored as Register. -/
theorem c1_counterexample :
    List.lookup "x"
        (updateDefinitions ⟨[], [], []⟩
          [DefCapture.aliasInstr
            [⟨"identifier", "x", ⟨⟨0, 6⟩, ⟨0, 7⟩⟩⟩,
             ⟨"register", "dx", ⟨⟨0, 8⟩, ⟨0, 10⟩⟩⟩]]).1.aliases =
      some ⟨⟨⟨0, 6⟩, ⟨0, 7⟩⟩, AliasValue.Device "dx"⟩ ∧
    (AliasValue.Device "dx").get_type ≠ DataType.Register :=
  ⟨rfl, by decide⟩

/-- C1 amended: the node kind of the alias target only gates acceptance
(register or device_spec); the stored Register/Device classification is
computed from the token text — it is Device exactly when the text starts
with "d", whatever the node kind was. -/
theorem c1_alias_prefix_classification (td : TypeData) (diags : List Diagnostic)
    (ops : List Operand) (nameNode valueNode : Operand)
    (hhead : ops.head? = some nameNode) (hlast : ops.getLast? = some valueNode)
    (hfree1 : List.lookup nameNode.text td.defines = none)
    (hfree2 : List.lookup nameNode.text td.aliases = none)
    (hkind : valueNode.childKind = "register" ∨ valueNode.childKind = "device_spec") :
    List.lookup nameNode.text (defStep (td, diags) (.aliasInstr ops)).1.aliases =
      some ⟨nameNode.range, AliasValue.ofString valueNode.text⟩ ∧
    ((AliasValue.ofString valueNode.text).get_type = DataType.Device ↔
      strStartsWith valueNode.text "d" = true) := by
  have hda : definesAliasesRange td nameNode.text = none :=
    definesAliasesRange_none td nameNode.text hfree1 hfree2
  constructor
  · have hstep : (defStep (td, diags) (.aliasInstr ops)).1 =
        { td with aliases :=
            td.aliases ++ [(nameNode.text, ⟨nameNode.range, AliasValue.ofString valueNode.text⟩)] } := by
      show (bindDefOrAlias false ops td diags).1 = _
      unfold bindDefOrAlias
      rw [hhead]
      simp only [hda, hlast]
      rcases hkind with h | h <;> simp [h]
    rw [hstep]
    show List.lookup nameNode.text
        (td.aliases ++
          [(nameNode.text,
            (⟨nameNode.range, AliasValue.ofString valueNode.text⟩ : DefinitionData AliasValue))]) = _
    rw [lookup_append_of_none nameNode.text td.aliases _ hfree2]
    simp [List.lookup]
  · unfold AliasValue.ofString
    cases h : strStartsWith valueNode.text "d" <;>
      simp [h, AliasValue.get_type]

/-- Witness for C1 at a concrete input: alias y r0 binds y to the Register
classification of "r0" (which does not start with "d"). -/
theorem c1_witness :
    List.lookup "y"
        (defStep ((⟨[], [], []⟩ : TypeData), [])
          (DefCapture.aliasInstr
            [⟨"identifier", "y", ⟨⟨1, 6⟩, ⟨1, 7⟩⟩⟩,
             ⟨"register", "r0", ⟨⟨1, 8⟩, ⟨1, 10⟩⟩⟩])).1.aliases =
      some ⟨⟨⟨1, 6⟩, ⟨1, 7⟩⟩, AliasValue.ofString "r0"⟩ ∧
    ((AliasValue.ofString "r0").get_type = DataType.Device ↔
      strStartsWith "r0" "d" = true) :=
  c1_alias_prefix_classification ⟨[], [], []⟩ []
    [⟨"identifier", "y", ⟨⟨1, 6⟩, ⟨1, 7⟩⟩⟩, ⟨"register", "r0", ⟨⟨1, 8⟩, ⟨1, 10⟩⟩⟩]
    ⟨"identifier", "y", ⟨⟨1, 6⟩, ⟨1, 7⟩⟩⟩ ⟨"register", "r0", ⟨⟨1, 8⟩, ⟨1, 10⟩⟩⟩
    rfl rfl rfl rfl (Or.inl rfl)

/-! ## C2: the uniqueness namespace is not flat -/

/-- C2 counterexample: a document whose captures are a label a followed by
define a 1 produces no duplicate-definition diagnostic at all, and the
define does create a new binding — defines and aliases are only checked
against each other, not against labels. -/
theorem c2_counterexample :
    (updateDefinitions ⟨[], [], []⟩
        [DefCapture.labelDef "a" ⟨⟨0, 0⟩, ⟨0, 1⟩⟩,
         DefCapture.defineInstr
           [⟨"identifier", "a", ⟨⟨1, 7⟩, ⟨1, 8⟩⟩⟩,
            ⟨"number", "1", ⟨⟨1, 9⟩, ⟨1, 10⟩⟩⟩]]).2 = [] ∧
    List.lookup "a"
        (updateDefinitions ⟨[], [], []⟩
          [DefCapture.labelDef "a" ⟨⟨0, 0⟩, ⟨0, 1⟩⟩,
           DefCapture.defineInstr
             [⟨"identifier", "a", ⟨⟨1, 7⟩, ⟨1, 8⟩⟩⟩,
              ⟨"number", "1", ⟨⟨1, 9⟩, ⟨1, 10⟩⟩⟩]]).1.defines =
      some ⟨⟨⟨1, 7⟩, ⟨1, 8⟩⟩, "1"⟩ :=
  ⟨rfl, rfl⟩

/-- C2 amended: uniqueness is asymmetric.  A define or alias collides
exactly with earlier defines and aliases (a duplicate is reported at the
new occurrence with a pointer to the first, and nothing is rebound), a
label collides with all three kinds, and a define whose name was earlier
bound only as a label is inserted silently alongside the label binding. -/
theorem c2_namespace_asymmetry (td : TypeData) (diags : List Diagnostic) :
    (∀ ops nameNode prevRng, ops.head? = some nameNode →
      definesAliasesRange td nameNode.text = some prevRng →
      defStep (td, diags) (.defineInstr ops) =
          (td, diags ++ [dupDiag nameNode.range prevRng]) ∧
      defStep (td, diags) (.aliasInstr ops) =
          (td, diags ++ [dupDiag nameNode.range prevRng])) ∧
    (∀ name rng prevRng, td.get_range name = some prevRng →
      defStep (td, diags) (.labelDef name rng) =
          (td, diags ++ [dupDiag rng prevRng])) ∧
    (∀ ops nameNode valueNode lbl, ops.head? = some nameNode →
      ops.getLast? = some valueNode →
      List.lookup nameNode.text td.defines = none →
      List.lookup nameNode.text td.aliases = none →
      List.lookup nameNode.text td.labels = some lbl →
      valueNode.childKind = "number" →
      defStep (td, diags) (.defineInstr ops) =
          ({ td with defines :=
              td.defines ++ [(nameNode.text, ⟨nameNode.range, valueNode.text⟩)] },
           diags)) := by
  refine ⟨?_, ?_, ?_⟩
  · intro ops nameNode prevRng hhead hprev
    constructor <;>
      · show bindDefOrAlias _ ops td diags = _
        unfold bindDefOrAlias
        rw [hhead]
        simp only [hprev]
  · intro name rng prevRng hprev
    simp only [defStep, hprev]
  · intro ops nameNode valueNode lbl hhead hlast hd ha _hl hnum
    have hda : definesAliasesRange td nameNode.text = none :=
      definesAliasesRange_none td nameNode.text hd ha
    show bindDefOrAlias true ops td diags = _
    unfold bindDefOrAlias
    rw [hhead]
    simp only [hda, hlast]
    simp [hnum]

/-- Witness for C2 at concrete inputs: with a bound as a label, a second
label a is reported while define a 1 silently binds. -/
theorem c2_witness :
    (defStep ((⟨[], [], [("a", ⟨⟨⟨0, 0⟩, ⟨0, 1⟩⟩, 0⟩)]⟩ : TypeData), [])
        (DefCapture.labelDef "a" ⟨⟨2, 0⟩, ⟨2, 1⟩⟩) =
      (⟨[], [], [("a", ⟨⟨⟨0, 0⟩, ⟨0, 1⟩⟩, 0⟩)]⟩,
       [dupDiag ⟨⟨2, 0⟩, ⟨2, 1⟩⟩ ⟨⟨0, 0⟩, ⟨0, 1⟩⟩])) ∧
    (defStep ((⟨[], [], [("a", ⟨⟨⟨0, 0⟩, ⟨0, 1⟩⟩, 0⟩)]⟩ : TypeData), [])
        (DefCapture.defineInstr
          [⟨"identifier", "a", ⟨⟨1, 7⟩, ⟨1, 8⟩⟩⟩,
           ⟨"number", "1", ⟨⟨1, 9⟩, ⟨1, 10⟩⟩⟩]) =
      (⟨[("a", ⟨⟨⟨1, 7⟩, ⟨1, 8⟩⟩, "1"⟩)], [], [("a", ⟨⟨⟨0, 0⟩, ⟨0, 1⟩⟩, 0⟩)]⟩, [])) :=
  ⟨(c2_namespace_asymmetry ⟨[], [], [("a", ⟨⟨⟨0, 0⟩, ⟨0, 1⟩⟩, 0⟩)]⟩ []).2.1
      "a" ⟨⟨2, 0⟩, ⟨2, 1⟩⟩ ⟨⟨0, 0⟩, ⟨0, 1⟩⟩ rfl,
   (c2_namespace_asymmetry ⟨[], [], [("a", ⟨⟨⟨0, 0⟩, ⟨0, 1⟩⟩, 0⟩)]⟩ []).2.2
      [⟨"identifier", "a", ⟨⟨1, 7⟩, ⟨1, 8⟩⟩⟩, ⟨"number", "1", ⟨⟨1, 9⟩, ⟨1, 10⟩⟩⟩]
      ⟨"identifier", "a", ⟨⟨1, 7⟩, ⟨1, 8⟩⟩⟩ ⟨"number", "1", ⟨⟨1, 9⟩, ⟨1, 10⟩⟩⟩
      ⟨⟨⟨0, 0⟩, ⟨0, 1⟩⟩, 0⟩ rfl rfl rfl rfl rfl rfl⟩

/-! ## C3: duplicate define detection -/

/-- C3: a document defining a as 1 and then, on a later line, as 2 yields
exactly one diagnostic: a duplicate-definition error at the second name
token, whose related location is the first name token, and the stored value
of a stays "1". -/
theorem c3_duplicate_define (r1 v1 r2 v2 : Rng)
    (_hline : r1.start.row < r2.start.row) :
    updateDefinitions ⟨[], [], []⟩
      [DefCapture.defineInstr [⟨"identifier", "a", r1⟩, ⟨"number", "1", v1⟩],
       DefCapture.defineInstr [⟨"identifier", "a", r2⟩, ⟨"number", "2", v2⟩]] =
    (⟨[("a", ⟨r1, "1"⟩)], [], []⟩, [dupDiag r2 r1]) := by
  rfl

/-- Witness for C3 at concrete ranges on lines 0 and 1. -/
theorem c3_witness :
    updateDefinitions ⟨[], [], []⟩
      [DefCapture.defineInstr
        [⟨"identifier", "a", ⟨⟨0, 7⟩, ⟨0, 8⟩⟩⟩, ⟨"number", "1", ⟨⟨0, 9⟩, ⟨0, 10⟩⟩⟩],
       DefCapture.defineInstr
        [⟨"identifier", "a", ⟨⟨1, 7⟩, ⟨1, 8⟩⟩⟩, ⟨"number", "2", ⟨⟨1, 9⟩, ⟨1, 10⟩⟩⟩]] =
    (⟨[("a", ⟨⟨⟨0, 7⟩, ⟨0, 8⟩⟩, "1"⟩)], [], []⟩,
     [dupDiag ⟨⟨1, 7⟩, ⟨1, 8⟩⟩ ⟨⟨0, 7⟩, ⟨0, 8⟩⟩]) :=
  c3_duplicate_define ⟨⟨0, 7⟩, ⟨0, 8⟩⟩ ⟨⟨0, 9⟩, ⟨0, 10⟩⟩ ⟨⟨1, 7⟩, ⟨1, 8⟩⟩
    ⟨⟨1, 9⟩, ⟨1, 10⟩⟩ (by decide)


/-! ## C5: literal batch modes -/

/-- C5 counterexample: the literal 256 is an integer absent from the
batch-mode table, so the claim requires the "Invalid batch mode" error; the
code parses the literal as u8, the parse fails on 256, and the
"Use of non-integer batch mode" error is emitted instead. -/
theorem c5_counterexample :
    numberBatchModeLint "lb" ⟨"number", "256", ⟨⟨0, 10⟩, ⟨0, 13⟩⟩⟩ =
      [{ range := ⟨⟨0, 10⟩, ⟨0, 13⟩⟩, severity := .error, code := none,
         message := .nonIntegerBatchMode, related := none, data := none }] ∧
    Msg.nonIntegerBatchMode ≠ Msg.invalidBatchMode :=
  ⟨rfl, by decide⟩

/-- C5 amended: the trailing literal is parsed as an 8-bit unsigned
integer.  A parsed value in the table yields the warning with the symbolic
name as payload (1 yields "Sum"); a parsed value (necessarily 0-255) absent
from the table yields the "Invalid batch mode" error; a literal that fails
the u8 parse — a non-integer, a negative number, or an integer above 255 —
yields the "Use of non-integer batch mode" error. -/
theorem c5_batch_mode_lint (op : String) (n : Operand)
    (hop : strStartsWith op "lb" = true) :
    BATCH_MODE_LOOKUP = [(0, "Average"), (1, "Sum"), (2, "Minimum"), (3, "Maximum")] ∧
    (∀ v r, parseU8 n.text = some v → List.lookup v BATCH_MODE_LOOKUP = some r →
      numberBatchModeLint op n =
        [{ range := n.range, severity := .warning, code := some LINT_NUMBER_BATCH_MODE,
           message := .literalBatchMode, related := none, data := some r }]) ∧
    (parseU8 n.text = some 1 →
      numberBatchModeLint op n =
        [{ range := n.range, severity := .warning, code := some LINT_NUMBER_BATCH_MODE,
           message := .literalBatchMode, related := none, data := some "Sum" }]) ∧
    (∀ v, parseU8 n.text = some v → List.lookup v BATCH_MODE_LOOKUP = none →
      numberBatchModeLint op n =
        [{ range := n.range, severity := .error, code := none,
           message := .invalidBatchMode, related := none, data := none }]) ∧
    (parseU8 n.text = none →
      numberBatchModeLint op n =
        [{ range := n.range, severity := .error, code := none,
           message := .nonIntegerBatchMode, related := none, data := none }]) := by
  refine ⟨rfl, ?_, ?_, ?_, ?_⟩
  · intro v r hv hr
    simp [numberBatchModeLint, hop, hv, hr]
  · intro hv
    simp [numberBatchModeLint, hop, hv, List.lookup]
  · intro v hv hr
    simp [numberBatchModeLint, hop, hv, hr]
  · intro hv
    simp [numberBatchModeLint, hop, hv]

/-- Witness for C5: a trailing literal 1 on an lb instruction yields the
warning whose payload is exactly "Sum". -/
theorem c5_witness :
    numberBatchModeLint "lb" ⟨"number", "1", ⟨⟨0, 10⟩, ⟨0, 11⟩⟩⟩ =
      [{ range := ⟨⟨0, 10⟩, ⟨0, 11⟩⟩, severity := .warning,
         code := some LINT_NUMBER_BATCH_MODE, message := .literalBatchMode,
         related := none, data := some "Sum" }] :=
  (c5_batch_mode_lint "lb" ⟨"number", "1", ⟨⟨0, 10⟩, ⟨0, 11⟩⟩⟩ (by decide)).2.2.1
    (by decide)

/-! ## C6: absolute-jump lint and its quick-fix table -/

/-- C6 counterexample: jal is in the branch set, so jal 5 receives the L001
warning, but the quick-fix replacement table has no entry for jal — the
lint warns on 38 mnemonics while the fix table maps only 19 of them. -/
theorem c6_counterexample :
    BRANCH_INSTRUCTIONS.contains "jal" = true ∧
    absoluteJumpLint
        ⟨"jal", ⟨⟨0, 0⟩, ⟨0, 3⟩⟩, [⟨"number", "5", ⟨⟨0, 4⟩, ⟨0, 5⟩⟩⟩], ⟨⟨0, 0⟩, ⟨0, 5⟩⟩⟩ =
      [{ range := ⟨⟨0, 0⟩, ⟨0, 5⟩⟩, severity := .warning,
         code := some LINT_ABSOLUTE_JUMP, message := .absoluteJump,
         related := none, data := none }] ∧
    List.lookup "jal" REPLACEMENTS = none :=
  ⟨by decide, rfl, by decide⟩

/-- C6 amended: every instruction whose mnemonic is in the branch set and
whose final operand is a number literal receives exactly one L001 warning;
the quick-fix table maps the plain mnemonics to their relative equivalents
(j to jr, beq to breq) but covers only those 19 mnemonics; jr is not in the
branch set, so jr with a numeric operand yields nothing. -/
theorem c6_absolute_jump_lint (i : InstructionNode) (lastOp : Operand)
    (hbr : BRANCH_INSTRUCTIONS.contains i.opText = true)
    (hlast : i.operands.getLast? = some lastOp)
    (hnum : lastOp.childKind = "number") :
    absoluteJumpLint i =
      [{ range := i.range, severity := .warning, code := some LINT_ABSOLUTE_JUMP,
         message := .absoluteJump, related := none, data := none }] ∧
    List.lookup "j" REPLACEMENTS = some "jr" ∧
    List.lookup "beq" REPLACEMENTS = some "breq" ∧
    (∀ jrInstr : InstructionNode, jrInstr.opText = "jr" →
      absoluteJumpLint jrInstr = []) := by
  refine ⟨?_, rfl, rfl, ?_⟩
  · have hmem : lastOp ∈ i.operands := List.mem_of_mem_getLast? hlast
    have hany : i.operands.any (fun o => o.childKind == "number") = true :=
      List.any_eq_true.mpr ⟨lastOp, hmem, by simp [hnum]⟩
    have hbr2 : i.opText ∈ BRANCH_INSTRUCTIONS := by simpa using hbr
    simp [absoluteJumpLint, hany, hbr2, hlast, hnum]
  · intro jrInstr hj
    have hnb : "jr" ∉ BRANCH_INSTRUCTIONS := by decide
    simp [absoluteJumpLint, hj, hnb]

/-- Witness for C6: j 5 yields exactly one L001 warning, the fix table
sends j to jr, and jr 5 yields no warning. -/
theorem c6_witness :
    absoluteJumpLint
        ⟨"j", ⟨⟨0, 0⟩, ⟨0, 1⟩⟩, [⟨"number", "5", ⟨⟨0, 2⟩, ⟨0, 3⟩⟩⟩], ⟨⟨0, 0⟩, ⟨0, 3⟩⟩⟩ =
      [{ range := ⟨⟨0, 0⟩, ⟨0, 3⟩⟩, severity := .warning,
         code := some LINT_ABSOLUTE_JUMP, message := .absoluteJump,
         related := none, data := none }] ∧
    List.lookup "j" REPLACEMENTS = some "jr" ∧
    absoluteJumpLint
        ⟨"jr", ⟨⟨1, 0⟩, ⟨1, 2⟩⟩, [⟨"number", "5", ⟨⟨1, 3⟩, ⟨1, 4⟩⟩⟩], ⟨⟨1, 0⟩, ⟨1, 4⟩⟩⟩ = [] :=
  ⟨(c6_absolute_jump_lint
      ⟨"j", ⟨⟨0, 0⟩, ⟨0, 1⟩⟩, [⟨"number", "5", ⟨⟨0, 2⟩, ⟨0, 3⟩⟩⟩], ⟨⟨0, 0⟩, ⟨0, 3⟩⟩⟩
      ⟨"number", "5", ⟨⟨0, 2⟩, ⟨0, 3⟩⟩⟩ (by decide) rfl rfl).1,
   (c6_absolute_jump_lint
      ⟨"j", ⟨⟨0, 0⟩, ⟨0, 1⟩⟩, [⟨"number", "5", ⟨⟨0, 2⟩, ⟨0, 3⟩⟩⟩], ⟨⟨0, 0⟩, ⟨0, 3⟩⟩⟩
      ⟨"number", "5", ⟨⟨0, 2⟩, ⟨0, 3⟩⟩⟩ (by decide) rfl rfl).2.1,
   (c6_absolute_jump_lint
      ⟨"j", ⟨⟨0, 0⟩, ⟨0, 1⟩⟩, [⟨"number", "5", ⟨⟨0, 2⟩, ⟨0, 3⟩⟩⟩], ⟨⟨0, 0⟩, ⟨0, 3⟩⟩⟩
      ⟨"number", "5", ⟨⟨0, 2⟩, ⟨0, 3⟩⟩⟩ (by decide) rfl rfl).2.2.2
     ⟨"jr", ⟨⟨1, 0⟩, ⟨1, 2⟩⟩, [⟨"number", "5", ⟨⟨1, 3⟩, ⟨1, 4⟩⟩⟩], ⟨⟨1, 0⟩, ⟨1, 4⟩⟩⟩ rfl⟩

/-! ## C7: identifier operand classification -/

/-- C7: an identifier operand is accepted as Name when the parameter admits
Name; otherwise a define or label binding classifies it Number, an alias
binding classifies it Register or Device per the stored kind, and an
unbound identifier contributes exactly the unknown-identifier error (and in
particular no type-mismatch diagnostic). -/
theorem c7_identifier_classification (td : TypeData) (parameter : Union)
    (o : Operand) (hid : o.childKind = "identifier") :
    (parameter.match_type DataType.Name = true →
      classifyOperand td parameter o = .typ [DataType.Name] ∧
      checkOperand td parameter o = []) ∧
    (parameter.match_type DataType.Name = false →
      (((List.lookup o.text td.defines).isSome ∨ (List.lookup o.text td.labels).isSome) →
        classifyOperand td parameter o = .typ [DataType.Number]) ∧
      (∀ data, List.lookup o.text td.defines = none →
        List.lookup o.text td.labels = none →
        List.lookup o.text td.aliases = some data →
        classifyOperand td parameter o = .typ [data.value.get_type]) ∧
      (List.lookup o.text td.defines = none →
        List.lookup o.text td.labels = none →
        List.lookup o.text td.aliases = none →
        checkOperand td parameter o =
          [{ range := o.range, severity := .error, code := none,
             message := .unknownIdentifier, related := none, data := none }])) := by
  have hcl : classifyOperand td parameter o =
      (if parameter.match_type DataType.Name then .typ [DataType.Name]
       else if (List.lookup o.text td.defines).isSome
           || (List.lookup o.text td.labels).isSome then
         .typ [DataType.Number]
       else
         match List.lookup o.text td.aliases with
         | some data =>
           match data.value with
           | AliasValue.Device _ => .typ [DataType.Device]
           | AliasValue.Register _ => .typ [DataType.Register]
         | none => .unknownIdent) := by
    unfold classifyOperand
    rw [hid]
    simp
  constructor
  · intro hname
    have hmu : parameter.match_union [DataType.Name] = true := by
      unfold Union.match_type at hname
      unfold Union.match_union
      simp only [List.any_eq_true] at hname ⊢
      obtain ⟨t, ht, hbeq⟩ := hname
      exact ⟨t, ht, by simpa using hbeq⟩
    have h1 : classifyOperand td parameter o = .typ [DataType.Name] := by
      rw [hcl, if_pos hname]
    refine ⟨h1, ?_⟩
    unfold checkOperand
    rw [h1]
    simp [hmu]
  · intro hname
    refine ⟨?_, ?_, ?_⟩
    · intro hsome
      rcases hsome with h | h <;> simp [hcl, hname, h]
    · intro data hd hl ha
      have : classifyOperand td parameter o =
          (match data.value with
           | AliasValue.Device _ => OperandClass.typ [DataType.Device]
           | AliasValue.Register _ => OperandClass.typ [DataType.Register]) := by
        simp [hcl, hname, hd, hl, ha]
      rw [this]
      cases hv : data.value <;> simp [AliasValue.get_type]
    · intro hd hl ha
      have h1 : classifyOperand td parameter o = .unknownIdent := by
        simp [hcl, hname, hd, hl, ha]
      unfold checkOperand
      rw [h1]

/-- Witness for C7 at concrete inputs: a Name parameter accepts any
identifier, a define binding classifies as Number, a Register alias
classifies as Register, and an unbound identifier yields exactly the
unknown-identifier error. -/
theorem c7_witness :
    (classifyOperand ⟨[], [], []⟩ [DataType.Name]
        ⟨"identifier", "x", ⟨⟨0, 6⟩, ⟨0, 7⟩⟩⟩ = .typ [DataType.Name] ∧
      checkOperand ⟨[], [], []⟩ [DataType.Name]
        ⟨"identifier", "x", ⟨⟨0, 6⟩, ⟨0, 7⟩⟩⟩ = []) ∧
    classifyOperand ⟨[("a", ⟨⟨⟨0, 7⟩, ⟨0, 8⟩⟩, "1"⟩)], [], []⟩ VALUE
        ⟨"identifier", "a", ⟨⟨1, 6⟩, ⟨1, 7⟩⟩⟩ = .typ [DataType.Number] ∧
    classifyOperand ⟨[], [("b", ⟨⟨⟨0, 6⟩, ⟨0, 7⟩⟩, AliasValue.Register "r0"⟩)], []⟩ VALUE
        ⟨"identifier", "b", ⟨⟨1, 6⟩, ⟨1, 7⟩⟩⟩ =
      .typ [(AliasValue.Register "r0").get_type] ∧
    checkOperand ⟨[], [], []⟩ VALUE ⟨"identifier", "u", ⟨⟨2, 6⟩, ⟨2, 7⟩⟩⟩ =
      [{ range := ⟨⟨2, 6⟩, ⟨2, 7⟩⟩, severity := .error, code := none,
         message := .unknownIdentifier, related := none, data := none }] :=
  ⟨(c7_identifier_classification ⟨[], [], []⟩ [DataType.Name]
      ⟨"identifier", "x", ⟨⟨0, 6⟩, ⟨0, 7⟩⟩⟩ rfl).1 (by decide),
   ((c7_identifier_classification ⟨[("a", ⟨⟨⟨0, 7⟩, ⟨0, 8⟩⟩, "1"⟩)], [], []⟩ VALUE
      ⟨"identifier", "a", ⟨⟨1, 6⟩, ⟨1, 7⟩⟩⟩ rfl).2 (by decide)).1 (Or.inl (by decide)),
   ((c7_identifier_classification ⟨[], [("b", ⟨⟨⟨0, 6⟩, ⟨0, 7⟩⟩, AliasValue.Register "r0"⟩)], []⟩
      VALUE ⟨"identifier", "b", ⟨⟨1, 6⟩, ⟨1, 7⟩⟩⟩ rfl).2 (by decide)).2.1
     ⟨⟨⟨0, 6⟩, ⟨0, 7⟩⟩, AliasValue.Register "r0"⟩ rfl rfl rfl,
   ((c7_identifier_classification ⟨[], [], []⟩ VALUE
      ⟨"identifier", "u", ⟨⟨2, 6⟩, ⟨2, 7⟩⟩⟩ rfl).2 (by decide)).2.2 rfl rfl rfl⟩

/-! ## C4: arity errors -/

/-- Diagnostics carrying the superfluous-arguments message. -/
def isSuperfluousDiag (d : Diagnostic) : Bool :=
  match d.message with
  | .superfluousArguments _ _ _ => true
  | _ => false

/-- Diagnostics carrying the invalid-number-of-arguments message. -/
def isInvalidCountDiag (d : Diagnostic) : Bool :=
  match d.message with
  | .invalidNumberOfArguments => true
  | _ => false

/-- The per-operand loop of check_types never produces either arity
message. -/
theorem checkOperand_not_arity (td : TypeData) (p : Union) (o : Operand)
    (d : Diagnostic) (hd : d ∈ checkOperand td p o) :
    isSuperfluousDiag d = false ∧ isInvalidCountDiag d = false := by
  unfold checkOperand at hd
  cases hcl : classifyOperand td p o with
  | skip => rw [hcl] at hd; simp at hd
  | unknownIdent =>
    rw [hcl] at hd
    simp at hd
    subst hd
    exact ⟨rfl, rfl⟩
  | typ u =>
    rw [hcl] at hd
    by_cases hm : p.match_union u = true
    · simp [hm] at hd
    · simp [hm] at hd
      subst hd
      exact ⟨rfl, rfl⟩

/-- C4: with the mnemonic resolved to a signature, an operand count above
the signature length yields exactly one superfluous-arguments error,
ranging from the first excess operand to the end of the instruction, and no
invalid-number-of-arguments error; a count below the signature length
yields exactly one invalid-number-of-arguments error over the whole
instruction and no superfluous-arguments error. -/
theorem c4_arity_errors (td : TypeData) (i : InstructionNode)
    (sig : InstructionSignature)
    (hsig : List.lookup i.opText INSTRUCTIONS = some sig) :
    ((hexcess : sig.length < i.operands.length) →
      (checkInstr td i).filter isSuperfluousDiag =
        [{ range := ⟨(i.operands.get ⟨sig.length, hexcess⟩).range.start, i.range.stop⟩,
           severity := .error, code := none,
           message := .superfluousArguments (1 < i.operands.length - sig.length)
             i.opText sig.length,
           related := none, data := none }] ∧
      (checkInstr td i).countP isInvalidCountDiag = 0) ∧
    (i.operands.length < sig.length →
      (checkInstr td i).filter isInvalidCountDiag =
        [{ range := i.range, severity := .error, code := none,
           message := .invalidNumberOfArguments, related := none, data := none }] ∧
      (checkInstr td i).countP isSuperfluousDiag = 0) := by
  have hck : checkInstr td i =
      (List.zip i.operands sig).flatMap (fun p => checkOperand td p.2 p.1)
        ++ arityDiags i.opText sig i := by
    unfold checkInstr
    rw [hsig]
  have hloop : ∀ d ∈ (List.zip i.operands sig).flatMap (fun p => checkOperand td p.2 p.1),
      isSuperfluousDiag d = false ∧ isInvalidCountDiag d = false := by
    intro d hd
    obtain ⟨p, _hp, hdp⟩ := List.mem_flatMap.mp hd
    exact checkOperand_not_arity td p.2 p.1 d hdp
  constructor
  · intro hexcess
    have harity : arityDiags i.opText sig i =
        [{ range := ⟨(i.operands.get ⟨sig.length, hexcess⟩).range.start, i.range.stop⟩,
           severity := .error, code := none,
           message := .superfluousArguments (1 < i.operands.length - sig.length)
             i.opText sig.length,
           related := none, data := none }] := by
      unfold arityDiags
      rw [dif_pos hexcess]
    constructor
    · rw [hck, List.filter_append, harity]
      rw [List.filter_eq_nil_iff.mpr (fun d hd => by simp [(hloop d hd).1])]
      simp [isSuperfluousDiag]
    · rw [hck, List.countP_append, harity]
      rw [List.countP_eq_zero.mpr (fun d hd => by simp [(hloop d hd).2])]
      simp [List.countP, List.countP.go, isInvalidCountDiag]
  · intro hdef
    have hnlt : ¬ sig.length < i.operands.length := by omega
    have hne : (i.operands.length != sig.length) = true := by
      simp only [bne_iff_ne, ne_eq]
      omega
    have harity : arityDiags i.opText sig i =
        [{ range := i.range, severity := .error, code := none,
           message := .invalidNumberOfArguments, related := none, data := none }] := by
      unfold arityDiags
      rw [dif_neg hnlt]
      simp [hne]
    constructor
    · rw [hck, List.filter_append, harity]
      rw [List.filter_eq_nil_iff.mpr (fun d hd => by simp [(hloop d hd).2])]
      simp [isInvalidCountDiag]
    · rw [hck, List.countP_append, harity]
      rw [List.countP_eq_zero.mpr (fun d hd => by simp [(hloop d hd).1])]
      simp [List.countP, List.countP.go, isSuperfluousDiag]

/-- Witness for C4 at concrete instructions: yield with one operand gets
exactly the superfluous-argument error spanning that operand to the end of
the instruction, and move with one operand gets exactly the
invalid-number-of-arguments error over the whole instruction. -/
theorem c4_witness :
    (checkInstr ⟨[], [], []⟩
        ⟨"yield", ⟨⟨0, 0⟩, ⟨0, 5⟩⟩, [⟨"number", "5", ⟨⟨0, 6⟩, ⟨0, 7⟩⟩⟩],
         ⟨⟨0, 0⟩, ⟨0, 7⟩⟩⟩).filter isSuperfluousDiag =
      [{ range := ⟨⟨0, 6⟩, ⟨0, 7⟩⟩, severity := .error, code := none,
         message := .superfluousArguments false "yield" 0, related := none,
         data := none }] ∧
    (checkInstr ⟨[], [], []⟩
        ⟨"move", ⟨⟨1, 0⟩, ⟨1, 4⟩⟩, [⟨"register", "r0", ⟨⟨1, 5⟩, ⟨1, 7⟩⟩⟩],
         ⟨⟨1, 0⟩, ⟨1, 7⟩⟩⟩).filter isInvalidCountDiag =
      [{ range := ⟨⟨1, 0⟩, ⟨1, 7⟩⟩, severity := .error, code := none,
         message := .invalidNumberOfArguments, related := none, data := none }] :=
  ⟨((c4_arity_errors ⟨[], [], []⟩
      ⟨"yield", ⟨⟨0, 0⟩, ⟨0, 5⟩⟩, [⟨"number", "5", ⟨⟨0, 6⟩, ⟨0, 7⟩⟩⟩], ⟨⟨0, 0⟩, ⟨0, 7⟩⟩⟩
      [] rfl).1 (by decide)).1,
   ((c4_arity_errors ⟨[], [], []⟩
      ⟨"move", ⟨⟨1, 0⟩, ⟨1, 4⟩⟩, [⟨"register", "r0", ⟨⟨1, 5⟩, ⟨1, 7⟩⟩⟩], ⟨⟨1, 0⟩, ⟨1, 7⟩⟩⟩
      [REGISTER, VALUE] rfl).2 (by decide)).1⟩

end Ic10
